import Mathlib

/-!
Verification of the token-refresh coordinator and Redux state slices of the
c2tactical client (src/lib/axiosInterceptor.ts, src/store/slices/authSlice.ts,
src/store/slices/threatSlice.ts, src/store/slices/satelliteSlice.ts).

The client runs on a single-threaded event loop, so the interceptor's
check-then-set on the shared `isRefreshing` flag is atomic between suspension
points.  We model the coordinator as an explicit state machine: each arriving
response error is one step, and the settlement of the in-flight refresh is one
step.  JavaScript `number` payload fields that the modelled code only stores
and copies (ids, counts, coordinates) are carried as `Int`.
-/

namespace C2Tac

/-- JavaScript truthiness of a nullable string (`null`, `undefined` and `""`
are falsy). -/
def jsTruthyStr : Option String → Bool
  | none => false
  | some s => s ≠ ""

/-- The `headers` object of an axios request config; we track the
`Authorization` entry, the one the interceptor reads and writes. -/
structure Headers where
  Authorization : Option String
  deriving DecidableEq, Repr

/-- An outgoing request as the response interceptor sees it
(`error.config`): its identity, its (possibly absent) headers object, and
the `_retry` marker monkey-patched onto the config (absent ≡ `false`). -/
structure Request where
  id : Nat
  headers : Option Headers
  _retry : Bool
  deriving DecidableEq, Repr

/-- Errors flowing through the interceptor: an `AxiosError` carrying the
request config and `error.response?.status` (`none` when there is no
response), or a plain `new Error(msg)`. -/
inductive JsError where
  | axiosErr (config : Request) (status : Option Nat)
  | jsErr (msg : String)
  deriving DecidableEq, Repr

/-- How a pending promise settles. -/
inductive Settlement where
  | resolved (token : String)
  | rejected (e : JsError)
  deriving DecidableEq, Repr

/-- Module-level mutable state of `axiosInterceptor.ts`: the `isRefreshing`
flag, the `failedQueue` of continuations (each continuation captures its
`originalRequest`), plus an instrumentation counter of how many times
`refreshAccessToken` has been dispatched. -/
structure CoordState where
  isRefreshing : Bool
  failedQueue : List Request
  refreshCalls : Nat
  deriving DecidableEq, Repr

/-- The initial module state: not refreshing, empty queue. -/
def cIdle : CoordState := { isRefreshing := false, failedQueue := [], refreshCalls := 0 }

/-- What `processQueue error token` does to one queued continuation:
`if (error) prom.reject(error); else if (token) prom.resolve(token);`
(JS truthiness: a non-null `Error` is truthy, a string is truthy iff
non-empty).  `none` means the continuation is left pending. -/
def settleOne (error : Option JsError) (token : Option String) : Option Settlement :=
  match error with
  | some e => some (.rejected e)
  | none =>
    match token with
    | some t => if t ≠ "" then some (.resolved t) else none
    | none => none

/-- `processQueue(error, token)`: iterates over `failedQueue` settling each
continuation per `settleOne`, then sets `failedQueue = []`.  Returns the
settlement of each previously queued continuation and the new queue. -/
def processQueue (error : Option JsError) (token : Option String) (queue : List α) :
    List (α × Option Settlement) × List α :=
  (queue.map (fun prom => (prom, settleOne error token)), [])

/-- The toast shown by the trailing branch of the response interceptor:
403, 404 and 500 each surface a message; every other status falls through
silently. -/
def toastFor (status : Option Nat) : Option String :=
  if status = some 403 then some "You don\x27t have permission to perform this action"
  else if status = some 404 then some "Resource not found"
  else if status = some 500 then some "Server error. Please try again later"
  else none

/-- Observable outcome of the response-error interceptor for one error. -/
inductive Outcome where
  | queued
  | refreshStarted (r : Request)
  | passthrough (toast : Option String) (err : JsError)
  deriving DecidableEq, Repr

/-- One step of the response-error interceptor on an error whose config is
`r` and whose response status is `status`.
If the status is 401 and `_retry` is unset: while `isRefreshing`, the
request's continuation is pushed onto `failedQueue`; otherwise the request
is marked `_retry = true`, `isRefreshing` is set, and `refreshAccessToken`
is dispatched (counted in `refreshCalls`).  Every other error falls through
to the status-toast branch and is re-rejected unchanged. -/
def onError (s : CoordState) (r : Request) (status : Option Nat) : CoordState × Outcome :=
  if status = some 401 ∧ r._retry = false then
    if s.isRefreshing then
      ({ s with failedQueue := s.failedQueue ++ [r] }, .queued)
    else
      ({ s with isRefreshing := true, refreshCalls := s.refreshCalls + 1 },
        .refreshStarted { r with _retry := true })
  else
    (s, .passthrough (toastFor status) (.axiosErr r status))

/-- Runs a sequence of 401 responses (one per request) through the
interceptor, collecting each outcome. -/
def run401s (s : CoordState) : List Request → CoordState × List Outcome
  | [] => (s, [])
  | r :: rs =>
    let step := onError s r (some 401)
    let rest := run401s step.1 rs
    (rest.1, step.2 :: rest.2)

/-- `r` with `headers.Authorization` set to `Bearer tok` — the
`if (originalRequest.headers) originalRequest.headers.Authorization = ...`
update performed before a retry. -/
def withAuth (tok : String) (r : Request) : Request :=
  match r.headers with
  | some h => { r with headers := some { h with Authorization := some ("Bearer " ++ tok) } }
  | none => r

/-- The Authorization header value of a request. -/
def authOf (r : Request) : Option String :=
  match r.headers with
  | some h => h.Authorization
  | none => none

/-- Result of the dispatched `refreshAccessToken` thunk as the interceptor
matches it: `refreshAccessToken.fulfilled.match(result)` succeeds with the
new access token, or the thunk rejected (via `rejectWithValue`) with a
message.  The thunk catches internally, so `store.dispatch` never throws
and the interceptor's `catch` block is unreachable. -/
inductive RefreshResult where
  | fulfilled (access : String)
  | rejectedAction (msg : String)
  deriving DecidableEq, Repr

/-- What the initiating request's interceptor promise does once the refresh
settles. -/
inductive InitiatorOutcome where
  | retried (r : Request)
  | rejectedWith (e : JsError)
  deriving DecidableEq, Repr

/-- All observable effects of the refresh settling. -/
structure SettleEffects where
  state : CoordState
  queuedSettlements : List (Request × Option Settlement)
  queuedRetries : List Request
  initiatorOutcome : InitiatorOutcome
  logoutDispatched : Bool
  toast : Option String
  redirect : Option String
  deriving DecidableEq, Repr

/-- The settlement of the in-flight refresh, from the `try` block of the
interceptor.  `initiator` is the request that started the refresh (its
`_retry` already set) and `origError` the 401 error it received.
On `fulfilled`: `processQueue(null, newToken)` resolves every queued
continuation, whose `.then` retries its captured request with
`Authorization: Bearer newToken`; the initiator is retried inline the same
way.  On a rejected action: `processQueue(new Error("Token refresh
failed"), null)` rejects every queued continuation, `logout` is dispatched,
a toast is shown, the browser is sent to `/login`, and the interceptor
returns `Promise.reject(error)` — the original 401 error.  The `finally`
clears `isRefreshing` on both paths. -/
def onRefreshSettled (s : CoordState) (initiator : Request) (origError : JsError)
    (res : RefreshResult) : SettleEffects :=
  match res with
  | .fulfilled newToken =>
    let pq := processQueue none (some newToken) s.failedQueue
    { state := { s with isRefreshing := false, failedQueue := pq.2 }
      queuedSettlements := pq.1
      queuedRetries := pq.1.filterMap (fun p =>
        match p.2 with
        | some (.resolved t) => some (withAuth t p.1)
        | _ => none)
      initiatorOutcome := .retried (withAuth newToken initiator)
      logoutDispatched := false
      toast := none
      redirect := none }
  | .rejectedAction _ =>
    let pq := processQueue (some (.jsErr "Token refresh failed")) none s.failedQueue
    { state := { s with isRefreshing := false, failedQueue := pq.2 }
      queuedSettlements := pq.1
      queuedRetries := []
      initiatorOutcome := .rejectedWith origError
      logoutDispatched := true
      toast := some "Session expired. Please login again."
      redirect := some "/login" }

/-! ## Auth slice (src/store/slices/authSlice.ts) -/

/-- The `User` interface of authSlice.ts.  Optional backend fields are
`Option`s; the payload is never inspected by the reducers. -/
structure User where
  id : Int
  email : String
  first_name : String
  last_name : String
  full_name : String
  rank : Option String
  unit : Option String
  phone_number : Option String
  avatar : Option String
  avatar_url : Option String
  is_verified : Bool
  is_staff : Bool
  date_joined : String
  last_login : Option String
  deriving DecidableEq, Repr

/-- The `AuthState` interface. -/
structure AuthState where
  user : Option User
  accessToken : Option String
  refreshToken : Option String
  isAuthenticated : Bool
  isLoading : Bool
  error : Option String
  deriving DecidableEq, Repr

/-- Payload of `login.fulfilled` and `register.fulfilled`. -/
structure LoginPayload where
  accessToken : String
  refreshToken : String
  user : User
  deriving DecidableEq, Repr

/-- The actions handled by `authSlice` (its own reducers plus every
`addCase` of its `extraReducers`). -/
inductive AuthAction where
  | logout
  | clearError
  | loginPending
  | loginFulfilled (p : LoginPayload)
  | loginRejected (msg : String)
  | registerPending
  | registerFulfilled (p : LoginPayload)
  | registerRejected (msg : String)
  | fetchCurrentUserPending
  | fetchCurrentUserFulfilled (u : User)
  | fetchCurrentUserRejected
  | updateProfileFulfilled (u : User)
  | uploadAvatarFulfilled (u : User)
  | refreshFulfilled (access : String)
  | refreshRejected
  deriving DecidableEq, Repr

/-- The authSlice reducer, case for case from the source (Immer mutations
rendered as functional record updates; fields not assigned are unchanged). -/
def authReducer (s : AuthState) : AuthAction → AuthState
  | .logout =>
    { s with user := none, accessToken := none, refreshToken := none,
             isAuthenticated := false, error := none }
  | .clearError => { s with error := none }
  | .loginPending => { s with isLoading := true, error := none }
  | .loginFulfilled p =>
    { s with isLoading := false, isAuthenticated := true, user := some p.user,
             accessToken := some p.accessToken, refreshToken := some p.refreshToken,
             error := none }
  | .loginRejected msg => { s with isLoading := false, error := some msg }
  | .registerPending => { s with isLoading := true, error := none }
  | .registerFulfilled p =>
    { s with isLoading := false, isAuthenticated := true, user := some p.user,
             accessToken := some p.accessToken, refreshToken := some p.refreshToken,
             error := none }
  | .registerRejected msg => { s with isLoading := false, error := some msg }
  | .fetchCurrentUserPending => { s with isLoading := true }
  | .fetchCurrentUserFulfilled u =>
    { s with user := some u, isAuthenticated := true, isLoading := false }
  | .fetchCurrentUserRejected =>
    { s with isAuthenticated := false, user := none, isLoading := false }
  | .updateProfileFulfilled u => { s with user := some u }
  | .uploadAvatarFulfilled u => { s with user := some u }
  | .refreshFulfilled access =>
    { s with accessToken := some access, isAuthenticated := true }
  | .refreshRejected =>
    { s with user := none, accessToken := none, refreshToken := none,
             isAuthenticated := false }

/-- The Session projection of the data model:
`{ accessToken, refreshToken, isAuthenticated }`. -/
def sessionOf (s : AuthState) : Option String × Option String × Bool :=
  (s.accessToken, s.refreshToken, s.isAuthenticated)

/-- The session is destroyed: both tokens cleared and not authenticated. -/
def sessionDestroyed (s : AuthState) : Prop :=
  s.accessToken = none ∧ s.refreshToken = none ∧ s.isAuthenticated = false

instance (s : AuthState) : Decidable (sessionDestroyed s) := by
  unfold sessionDestroyed; infer_instance

/-- The two string tokens kept in browser `localStorage`. -/
structure LocalStorage where
  accessToken : Option String
  refreshToken : Option String
  deriving DecidableEq, Repr

/-- Result, storage and network-call count of one run of the
`refreshAccessToken` thunk. -/
inductive ThunkResult where
  | fulfilled (access : String)
  | rejectedWith (msg : String)
  deriving DecidableEq, Repr

/-- One run of `refreshAccessToken`. -/
structure RefreshRun where
  result : ThunkResult
  storage : LocalStorage
  networkCalls : Nat
  deriving DecidableEq, Repr

/-- The `refreshAccessToken` thunk: reads `refreshToken` from localStorage;
if falsy, `rejectWithValue("No refresh token found")` with no network call;
otherwise POSTs to the refresh endpoint (`net` is the backend's answer).
On success the new access token is stored and returned; on any network
error both tokens are removed and the thunk rejects with
"Session expired. Please login again.". -/
def refreshAccessToken (st : LocalStorage) (net : Except String String) : RefreshRun :=
  if jsTruthyStr st.refreshToken = false then
    { result := .rejectedWith "No refresh token found", storage := st, networkCalls := 0 }
  else
    match net with
    | .ok access =>
      { result := .fulfilled access,
        storage := { st with accessToken := some access }, networkCalls := 1 }
    | .error _ =>
      { result := .rejectedWith "Session expired. Please login again.",
        storage := { accessToken := none, refreshToken := none }, networkCalls := 1 }

/-- The localStorage effect of the `logout` reducer
(`removeItem` on both tokens). -/
def logoutStorage (_st : LocalStorage) : LocalStorage :=
  { accessToken := none, refreshToken := none }

/-- Which auth actions assign at least one Session field
(accessToken, refreshToken, isAuthenticated) in the reducer. -/
def touchesSession : AuthAction → Bool
  | .logout => true
  | .loginFulfilled _ => true
  | .registerFulfilled _ => true
  | .fetchCurrentUserFulfilled _ => true
  | .fetchCurrentUserRejected => true
  | .refreshFulfilled _ => true
  | .refreshRejected => true
  | _ => false

/-! ## Resource slices (threatSlice.ts, satelliteSlice.ts) -/

/-- `severity` of a threat. -/
inductive Severity where
  | low | medium | high | critical
  deriving DecidableEq, Repr

/-- The `Threat` interface of threatSlice.ts (JS `number` payloads carried
as `Int`). -/
structure Threat where
  id : Int
  analysis : Int
  satellite_image : Int
  image_name : String
  threat_type : String
  threat_type_display : String
  severity : Severity
  severity_display : String
  location_coords : Int × Int
  confidence : Int
  description : String
  detected_at : String
  verified : Bool
  acknowledged : Bool
  notes : String
  deriving DecidableEq, Repr

/-- The `summary` object of `ThreatState` (`Record<string, number>` as
association lists). -/
structure ThreatSummary where
  total : Int
  by_severity : List (String × Int)
  by_type : List (String × Int)
  verified_count : Int
  acknowledged_count : Int
  deriving DecidableEq, Repr

/-- The `ThreatState` interface. -/
structure ThreatState where
  threats : List Threat
  currentThreat : Option Threat
  isLoading : Bool
  error : Option String
  summary : Option ThreatSummary
  deriving DecidableEq, Repr

/-- `const i = xs.findIndex(p); if (i !== -1) xs[i] = f(xs[i]);` —
in-place update of the first element satisfying `p`. -/
def jsUpdateFirst (p : α → Bool) (f : α → α) : List α → List α
  | [] => []
  | x :: xs => if p x then f x :: xs else x :: jsUpdateFirst p f xs

/-- `verifyThreat.fulfilled`: find the threat whose id matches the payload
and assign the payload over it; no other field of the state is touched. -/
def verifyThreatFulfilled (s : ThreatState) (payload : Threat) : ThreatState :=
  { s with threats :=
      jsUpdateFirst (fun t => t.id = payload.id) (fun _ => payload) s.threats }

/-- `acknowledgeThreat.fulfilled`: identical in-place patch by id. -/
def acknowledgeThreatFulfilled (s : ThreatState) (payload : Threat) : ThreatState :=
  { s with threats :=
      jsUpdateFirst (fun t => t.id = payload.id) (fun _ => payload) s.threats }

/-- `status` of a satellite image. -/
inductive ImageStatus where
  | uploaded | processing | optimized | failed
  deriving DecidableEq, Repr

/-- The `SatelliteImage` interface of satelliteSlice.ts. -/
structure SatelliteImage where
  id : Int
  name : String
  upload_date : String
  acquisition_date : Option String
  status : ImageStatus
  analyzed : Bool
  analysis_count : Int
  image_url : Option String
  thumbnail_url : Option String
  bounds : Option ((Int × Int) × (Int × Int))
  resolution : Option Int
  file_size : Option Int
  deriving DecidableEq, Repr

/-- The `pagination` object of `SatelliteState`. -/
structure Pagination where
  count : Int
  next : Option String
  previous : Option String
  deriving DecidableEq, Repr

/-- The `SatelliteState` interface. -/
structure SatelliteState where
  images : List SatelliteImage
  currentImage : Option SatelliteImage
  isLoading : Bool
  error : Option String
  pagination : Pagination
  deriving DecidableEq, Repr

/-- Payload of `analyzeImage.fulfilled`: the backend response spread
together with the `imageId` the thunk was called with. -/
structure AnalyzePayload where
  message : String
  analysis_id : Int
  task_id : String
  status : String
  imageId : Int
  deriving DecidableEq, Repr

/-- The in-place field update `img.analyzed = true; img.analysis_count += 1`. -/
def markAnalyzed (img : SatelliteImage) : SatelliteImage :=
  { img with analyzed := true, analysis_count := img.analysis_count + 1 }

/-- `analyzeImage.fulfilled`: patch the image whose id equals
`payload.imageId` in the `images` array (via `findIndex`), and patch
`currentImage` too when its id matches; nothing else changes. -/
def analyzeImageFulfilled (s : SatelliteState) (payload : AnalyzePayload) : SatelliteState :=
  let images1 := jsUpdateFirst (fun img => img.id = payload.imageId) markAnalyzed s.images
  let current1 :=
    match s.currentImage with
    | some img => if img.id = payload.imageId then some (markAnalyzed img) else some img
    | none => none
  { s with images := images1, currentImage := current1 }

/-! ## Concrete sample data (used by witnesses and counterexamples) -/

/-- A fresh unretried request. -/
def reqW1 : Request :=
  { id := 1, headers := some { Authorization := some "Bearer T1" }, _retry := false }

/-- A second fresh unretried request. -/
def reqW2 : Request :=
  { id := 2, headers := some { Authorization := some "Bearer T1" }, _retry := false }

/-- A fresh unretried request used in the queued-replay scenario. -/
def reqA : Request :=
  { id := 0, headers := some { Authorization := some "Bearer T1" }, _retry := false }

/-- Coordinator state with a refresh in flight and one queued continuation. -/
def cRefreshingW : CoordState :=
  { isRefreshing := true, failedQueue := [reqW2], refreshCalls := 1 }

/-- Coordinator state after request `reqW1` initiated a refresh and request
`reqA` was queued behind it. -/
def c4s2 : CoordState := (onError (onError cIdle reqW1 (some 401)).1 reqA (some 401)).1

/-- Settlement of that refresh with new token `T2`: `reqA` is replayed. -/
def c4eff1 : SettleEffects :=
  onRefreshSettled c4s2 { reqW1 with _retry := true }
    (.axiosErr reqW1 (some 401)) (.fulfilled "T2")

/-- The replayed form of `reqA` (token `T2` applied, `_retry` still unset). -/
def reqA2 : Request := withAuth "T2" reqA

/-- The replayed `reqA` receives a second 401. -/
def c4step2 : CoordState × Outcome := onError c4eff1.state reqA2 (some 401)

/-- Settlement of the second refresh with token `T3`. -/
def c4eff2 : SettleEffects :=
  onRefreshSettled c4step2.1 { reqA2 with _retry := true }
    (.axiosErr reqA2 (some 401)) (.fulfilled "T3")

/-- A sample user payload. -/
def userW : User :=
  { id := 1, email := "o@c2.mil", first_name := "Ada", last_name := "Obi",
    full_name := "Ada Obi", rank := none, unit := none, phone_number := none,
    avatar := none, avatar_url := none, is_verified := true, is_staff := false,
    date_joined := "2025-01-01", last_login := none }

/-- A logged-out auth state. -/
def authLoggedOut : AuthState :=
  { user := none, accessToken := none, refreshToken := none,
    isAuthenticated := false, isLoading := false, error := none }

/-- A logged-in auth state holding both tokens. -/
def sTok : AuthState :=
  { user := some userW, accessToken := some "tokA", refreshToken := some "tokR",
    isAuthenticated := true, isLoading := false, error := none }

/-- A sample cached threat. -/
def threatW1 : Threat :=
  { id := 1, analysis := 1, satellite_image := 1, image_name := "img1",
    threat_type := "vehicle", threat_type_display := "Vehicle", severity := .low,
    severity_display := "Low", location_coords := (6, 3), confidence := 90,
    description := "d", detected_at := "2025-01-02", verified := false,
    acknowledged := false, notes := "" }

/-- A second cached threat with a different server id. -/
def threatW2 : Threat := { threatW1 with id := 2 }

/-- The server's updated copy of threat 2 after verification. -/
def threatW2v : Threat := { threatW2 with verified := true }

/-- A threat-slice state caching two threats. -/
def tsW : ThreatState :=
  { threats := [threatW1, threatW2], currentThreat := none, isLoading := false,
    error := none, summary := none }

/-- A sample cached satellite image. -/
def imgW1 : SatelliteImage :=
  { id := 1, name := "a", upload_date := "2025-01-01", acquisition_date := none,
    status := .optimized, analyzed := false, analysis_count := 0, image_url := none,
    thumbnail_url := none, bounds := none, resolution := none, file_size := none }

/-- A second cached image with a different server id. -/
def imgW2 : SatelliteImage := { imgW1 with id := 2 }

/-- A satellite-slice state caching two images, the second being current. -/
def ssW : SatelliteState :=
  { images := [imgW1, imgW2], currentImage := some imgW2, isLoading := false,
    error := none, pagination := { count := 2, next := none, previous := none } }

/-- A sample `analyzeImage.fulfilled` payload targeting image 2. -/
def apW : AnalyzePayload :=
  { message := "queued", analysis_id := 9, task_id := "t", status := "PENDING",
    imageId := 2 }

/-! ## Helper lemmas -/

/-- While a refresh is in flight, every arriving 401 on an unretried request
is queued in arrival order; no refresh is dispatched and the flag stays set. -/
theorem run401s_refreshing (s : CoordState) (rs : List Request)
    (hs : s.isRefreshing = true) (hrs : ∀ x ∈ rs, x._retry = false) :
    run401s s rs =
      ({ s with failedQueue := s.failedQueue ++ rs }, rs.map fun _ => Outcome.queued) := by
  induction rs generalizing s with
  | nil => simp [run401s]
  | cons r rs ih =>
    have hr : r._retry = false := hrs r (by simp)
    have hrs' : ∀ x ∈ rs, x._retry = false := fun x hx => hrs x (by simp [hx])
    simp only [run401s, onError, hr, hs, if_true, and_true, List.map_cons]
    rw [ih _ rfl hrs']
    simp [List.append_assoc]

/-! ## Claims about the token-refresh coordinator -/

/-- C1: in any burst of N > 1 concurrent 401s on unretried requests starting
from the idle coordinator, exactly one refresh call is dispatched: the first
401 transitions Idle to Refreshing (marking its request retried), and every
further 401 — equivalently, any 401 arriving in any state where
`isRefreshing` is set — pushes its continuation onto the pending queue
without invoking refresh. -/
theorem refresh_serialized_single_call (r : Request) (rs : List Request)
    (hr : r._retry = false) (hrs : ∀ x ∈ rs, x._retry = false) :
    run401s cIdle (r :: rs) =
      ({ isRefreshing := true, failedQueue := rs, refreshCalls := 1 },
        Outcome.refreshStarted { r with _retry := true } :: rs.map fun _ => Outcome.queued) ∧
    (∀ s : CoordState, s.isRefreshing = true →
      run401s s rs =
        ({ s with failedQueue := s.failedQueue ++ rs }, rs.map fun _ => Outcome.queued)) := by
  refine ⟨?_, fun s hs => run401s_refreshing s rs hs hrs⟩
  have h1 : onError cIdle r (some 401) =
      ({ isRefreshing := true, failedQueue := [], refreshCalls := 1 },
        Outcome.refreshStarted { r with _retry := true }) := by
    unfold onError
    rw [if_pos ⟨rfl, hr⟩, if_neg (by simp [cIdle])]
    simp [cIdle]
  simp only [run401s, h1]
  rw [run401s_refreshing _ rs rfl hrs]
  simp

/-- Witness for C1 at two concrete requests: one refresh call, the second
request queued. -/
theorem refresh_serialized_single_call_witness :
    run401s cIdle [reqW1, reqW2] =
      ({ isRefreshing := true, failedQueue := [reqW2], refreshCalls := 1 },
        [Outcome.refreshStarted { reqW1 with _retry := true }, Outcome.queued]) :=
  (refresh_serialized_single_call reqW1 [reqW2] rfl (by decide)).1

/-- C10: `processQueue` leaves the queue empty, walks each previously queued
continuation exactly once, and settles it as follows: rejected with the
error exactly when the error argument is non-null; resolved with the token
exactly when the error is null and the token is non-null and non-empty;
left pending (never settled) when the error is null and the token is null
or the empty string. -/
theorem processQueue_settlement_spec (error : Option JsError) (token : Option String)
    (queue : List Request) :
    (processQueue error token queue).2 = [] ∧
    (processQueue error token queue).1.map Prod.fst = queue ∧
    ∀ p ∈ (processQueue error token queue).1,
      (∀ e, error = some e → p.2 = some (.rejected e)) ∧
      (∀ t, error = none → token = some t → t ≠ "" → p.2 = some (.resolved t)) ∧
      (error = none → (token = none ∨ token = some "") → p.2 = none) := by
  refine ⟨rfl, by induction queue <;> simp_all [processQueue], ?_⟩
  intro p hp
  simp only [processQueue, List.mem_map] at hp
  obtain ⟨c, _, rfl⟩ := hp
  refine ⟨?_, ?_, ?_⟩
  · rintro e rfl; simp [settleOne]
  · rintro t rfl rfl ht; simp [settleOne, ht]
  · rintro rfl (rfl | rfl) <;> simp [settleOne]

/-- Witness for C10: a continuation queued behind a failed refresh is
rejected with the error, and the queue is emptied. -/
theorem processQueue_settlement_spec_witness :
    (processQueue (some (JsError.jsErr "boom")) none [reqW1]).2 = [] ∧
    (reqW1, settleOne (some (JsError.jsErr "boom")) none).2
      = some (Settlement.rejected (JsError.jsErr "boom")) := by
  have h := processQueue_settlement_spec (some (JsError.jsErr "boom")) none [reqW1]
  exact ⟨h.1, (h.2.2 (reqW1, settleOne (some (JsError.jsErr "boom")) none)
    (by simp [processQueue])).1 (JsError.jsErr "boom") rfl⟩

/-- Resolving the pending queue with a non-empty token retries every queued
request with that token applied. -/
theorem filterMap_resolved (T2 : String) (hT : T2 ≠ "") (q : List Request) :
    ((processQueue none (some T2) q).1.filterMap (fun p =>
        match p.2 with
        | some (.resolved t) => some (withAuth t p.1)
        | _ => none)) = q.map (withAuth T2) := by
  have hs : settleOne none (some T2) = some (.resolved T2) := by simp [settleOne, hT]
  simp only [processQueue, hs]
  induction q with
  | nil => rfl
  | cons x xs ih => simp [List.filterMap_cons, ih]

/-- C2: after a burst of concurrent 401s in which `r` initiated the refresh
and `rs` were queued, a refresh fulfilled with a non-empty token T2 resolves
every queued continuation with T2, retrying each queued request with
`Authorization: Bearer T2`; the initiating request is retried inline with
the same header; the refresh-call count stays at one and the queue is
drained. -/
theorem refresh_success_replays_all (r : Request) (rs : List Request) (T2 : String)
    (orig : JsError) (hr : r._retry = false) (hrs : ∀ x ∈ rs, x._retry = false)
    (hT : T2 ≠ "") :
    (onRefreshSettled (run401s cIdle (r :: rs)).1 { r with _retry := true } orig
        (.fulfilled T2)).queuedRetries = rs.map (withAuth T2) ∧
    (onRefreshSettled (run401s cIdle (r :: rs)).1 { r with _retry := true } orig
        (.fulfilled T2)).initiatorOutcome
      = .retried (withAuth T2 { r with _retry := true }) ∧
    (onRefreshSettled (run401s cIdle (r :: rs)).1 { r with _retry := true } orig
        (.fulfilled T2)).state.refreshCalls = 1 ∧
    (onRefreshSettled (run401s cIdle (r :: rs)).1 { r with _retry := true } orig
        (.fulfilled T2)).state.isRefreshing = false ∧
    (onRefreshSettled (run401s cIdle (r :: rs)).1 { r with _retry := true } orig
        (.fulfilled T2)).state.failedQueue = [] ∧
    (∀ x ∈ rs, x.headers.isSome = true → authOf (withAuth T2 x) = some ("Bearer " ++ T2)) ∧
    (r.headers.isSome = true → authOf (withAuth T2 { r with _retry := true })
        = some ("Bearer " ++ T2)) := by
  have hauth : ∀ x : Request, x.headers.isSome = true →
      authOf (withAuth T2 x) = some ("Bearer " ++ T2) := by
    intro x hx
    cases hh : x.headers with
    | none => rw [hh] at hx; simp at hx
    | some h => simp [withAuth, authOf, hh]
  have h1 : onError cIdle r (some 401) =
      ({ isRefreshing := true, failedQueue := [], refreshCalls := 1 },
        Outcome.refreshStarted { r with _retry := true }) := by
    unfold onError
    rw [if_pos ⟨rfl, hr⟩, if_neg (by simp [cIdle])]
    simp [cIdle]
  have hs1 : (run401s cIdle (r :: rs)).1 =
      { isRefreshing := true, failedQueue := rs, refreshCalls := 1 } := by
    simp only [run401s, h1]
    rw [run401s_refreshing _ rs rfl hrs]
    rfl
  rw [hs1]
  refine ⟨?_, rfl, rfl, rfl, rfl, fun x _ hx => hauth x hx, fun hx => hauth _ hx⟩
  simp only [onRefreshSettled]
  exact filterMap_resolved T2 hT rs

/-- Witness for C2: two concrete requests, refresh fulfilled with "T2" —
the queued request is replayed with the token, the initiator retried
inline, one refresh call in total. -/
theorem refresh_success_replays_all_witness :
    (onRefreshSettled (run401s cIdle [reqW1, reqW2]).1 { reqW1 with _retry := true }
        (.axiosErr reqW1 (some 401)) (.fulfilled "T2")).queuedRetries
      = [reqW2].map (withAuth "T2") ∧
    (onRefreshSettled (run401s cIdle [reqW1, reqW2]).1 { reqW1 with _retry := true }
        (.axiosErr reqW1 (some 401)) (.fulfilled "T2")).initiatorOutcome
      = .retried (withAuth "T2" { reqW1 with _retry := true }) ∧
    (onRefreshSettled (run401s cIdle [reqW1, reqW2]).1 { reqW1 with _retry := true }
        (.axiosErr reqW1 (some 401)) (.fulfilled "T2")).state.refreshCalls = 1 ∧
    authOf (withAuth "T2" reqW2) = some ("Bearer " ++ "T2") := by
  have h := refresh_success_replays_all reqW1 [reqW2] "T2"
    (.axiosErr reqW1 (some 401)) rfl (by decide) (by decide)
  exact ⟨h.1, h.2.1, h.2.2.1, h.2.2.2.2.2.1 reqW2 (by simp) (by decide)⟩

/-- C3 counterexample: at a concrete refreshing state, when the refresh
thunk rejects, the initiating request's promise is rejected with the
original 401 `AxiosError` — not with the refresh error (the queued
continuations get `Error("Token refresh failed")`, a different value). -/
theorem refresh_failure_rejects_with_original_401 :
    (onRefreshSettled cRefreshingW { reqW1 with _retry := true }
        (.axiosErr reqW1 (some 401))
        (.rejectedAction "Session expired. Please login again.")).initiatorOutcome
      = .rejectedWith (.axiosErr reqW1 (some 401)) ∧
    JsError.axiosErr reqW1 (some 401) ≠ JsError.jsErr "Token refresh failed" := by
  exact ⟨rfl, by decide⟩

/-- C3 amended: when the refresh rejects, every queued continuation is
rejected with the same error (`Error("Token refresh failed")`), logout is
dispatched, a session-expired toast is shown, the browser is redirected to
`/login`, the refreshing flag is cleared and the queue drained — but the
triggering request's promise rejects with its original 401 error, not the
refresh error. -/
theorem refresh_failure_path (s : CoordState) (init : Request) (orig : JsError)
    (msg : String) :
    (onRefreshSettled s init orig (.rejectedAction msg)).queuedSettlements.map Prod.snd
      = s.failedQueue.map
          (fun _ => some (Settlement.rejected (.jsErr "Token refresh failed"))) ∧
    (onRefreshSettled s init orig (.rejectedAction msg)).logoutDispatched = true ∧
    (onRefreshSettled s init orig (.rejectedAction msg)).redirect = some "/login" ∧
    (onRefreshSettled s init orig (.rejectedAction msg)).toast
      = some "Session expired. Please login again." ∧
    (onRefreshSettled s init orig (.rejectedAction msg)).initiatorOutcome
      = .rejectedWith orig ∧
    (onRefreshSettled s init orig (.rejectedAction msg)).queuedRetries = [] ∧
    (onRefreshSettled s init orig (.rejectedAction msg)).state.isRefreshing = false ∧
    (onRefreshSettled s init orig (.rejectedAction msg)).state.failedQueue = [] := by
  refine ⟨?_, rfl, rfl, rfl, rfl, rfl, rfl, rfl⟩
  simp only [onRefreshSettled, processQueue, settleOne, List.map_map]
  generalize s.failedQueue = q
  induction q with
  | nil => rfl
  | cons x xs ih => simpa using ih

/-- C4 counterexample: a request queued during a refresh is replayed with
the new token but without its `_retry` marker set; when the replay receives
a second 401 in the idle state it initiates a second refresh and is retried
a second time — the one-shot guarantee does not extend to queued requests. -/
theorem queued_replay_retried_again :
    c4eff1.queuedRetries = [reqA2] ∧
    reqA2._retry = false ∧
    c4step2.2 = Outcome.refreshStarted { reqA2 with _retry := true } ∧
    c4step2.1.refreshCalls = 2 ∧
    c4eff2.initiatorOutcome = .retried (withAuth "T3" { reqA2 with _retry := true }) := by
  exact ⟨rfl, rfl, rfl, rfl, rfl⟩

/-- C4 amended: the `_retry` marker is one-shot for the request carrying
it — any request already marked retried that receives a second 401 is not
retried, queued, or allowed to start a refresh: the interceptor state is
untouched and the error falls through to generic rejection.  (A request
queued during a refresh is replayed without the marker and can be retried
again.) -/
theorem retried_marker_one_shot (s : CoordState) (r : Request)
    (h : r._retry = true) :
    onError s r (some 401) = (s, .passthrough none (.axiosErr r (some 401))) := by
  unfold onError
  rw [if_neg (by simp [h])]
  simp [toastFor]

/-- Witness for the amended C4: a marked request receiving a 401 passes
through unchanged. -/
theorem retried_marker_one_shot_witness :
    onError cIdle { reqW1 with _retry := true } (some 401)
      = (cIdle, .passthrough none (.axiosErr { reqW1 with _retry := true } (some 401))) :=
  retried_marker_one_shot cIdle { reqW1 with _retry := true } rfl

/-- C6 counterexample: a 400 response (a non-401 error) surfaces no
user-visible notification — the toast branch covers only 403, 404 and
500 — although the error is propagated unchanged. -/
theorem status_400_has_no_toast :
    onError cIdle reqW1 (some 400)
      = (cIdle, .passthrough none (.axiosErr reqW1 (some 400))) ∧
    (toastFor (some 400)).isSome = false := by
  exact ⟨rfl, rfl⟩

/-- C6 amended: every non-401 error is not retried: the coordinator state
is untouched and the original error is propagated unchanged to the caller;
a user-visible notification is surfaced exactly for statuses 403, 404 and
500 (other non-401 errors propagate silently). -/
theorem non401_passthrough (s : CoordState) (r : Request) (status : Option Nat)
    (h : status ≠ some 401) :
    onError s r status = (s, .passthrough (toastFor status) (.axiosErr r status)) ∧
    ((toastFor status).isSome = true ↔
      status = some 403 ∨ status = some 404 ∨ status = some 500) := by
  constructor
  · unfold onError
    rw [if_neg (by simp [h])]
  · unfold toastFor
    split_ifs with h3 h4 h5 <;> simp_all

/-- Witness for the amended C6: a concrete 404 passes through with its
resource-not-found toast. -/
theorem non401_passthrough_witness :
    onError cIdle reqW1 (some 404)
      = (cIdle, .passthrough (toastFor (some 404)) (.axiosErr reqW1 (some 404))) ∧
    ((toastFor (some 404)).isSome = true ↔
      some 404 = some 403 ∨ some 404 = some 404 ∨ some 404 = some 500) :=
  non401_passthrough cIdle reqW1 (some 404) (by decide)

/-! ## Claims about the auth slice -/

/-- C5: when no refresh token is present in storage, the refresh thunk
rejects immediately with zero calls to the refresh endpoint and storage is
untouched; the interceptor's failure branch then dispatches logout and
redirects to `/login`, and the rejected action (like the logout action)
destroys the session in the store. -/
theorem refresh_without_token_immediate_failure (st : LocalStorage)
    (net : Except String String) (a : AuthState) (s : CoordState) (init : Request)
    (orig : JsError) (h : st.refreshToken = none) :
    (refreshAccessToken st net).networkCalls = 0 ∧
    (refreshAccessToken st net).result = .rejectedWith "No refresh token found" ∧
    (refreshAccessToken st net).storage = st ∧
    (onRefreshSettled s init orig
        (.rejectedAction "No refresh token found")).logoutDispatched = true ∧
    (onRefreshSettled s init orig
        (.rejectedAction "No refresh token found")).redirect = some "/login" ∧
    sessionDestroyed (authReducer a .refreshRejected) ∧
    sessionDestroyed (authReducer a .logout) := by
  have hrun : refreshAccessToken st net =
      { result := .rejectedWith "No refresh token found", storage := st,
        networkCalls := 0 } := by
    unfold refreshAccessToken
    rw [if_pos (by simp [jsTruthyStr, h])]
  exact ⟨by rw [hrun], by rw [hrun], by rw [hrun], rfl, rfl,
    by simp [authReducer, sessionDestroyed], by simp [authReducer, sessionDestroyed]⟩

/-- Witness for C5 at a concrete storage state with an access token but no
refresh token. -/
theorem refresh_without_token_immediate_failure_witness :
    (refreshAccessToken { accessToken := some "A", refreshToken := none }
        (Except.ok "X")).networkCalls = 0 ∧
    (refreshAccessToken { accessToken := some "A", refreshToken := none }
        (Except.ok "X")).result = .rejectedWith "No refresh token found" ∧
    (onRefreshSettled cRefreshingW { reqW1 with _retry := true }
        (.axiosErr reqW1 (some 401))
        (.rejectedAction "No refresh token found")).logoutDispatched = true ∧
    sessionDestroyed (authReducer sTok .refreshRejected) := by
  have h := refresh_without_token_immediate_failure
    { accessToken := some "A", refreshToken := none } (Except.ok "X") sTok
    cRefreshingW { reqW1 with _retry := true } (.axiosErr reqW1 (some 401)) rfl
  exact ⟨h.1, h.2.1, h.2.2.2.1, h.2.2.2.2.2.1⟩

/-- C7 counterexample: `register.fulfilled` and `fetchCurrentUser.fulfilled`
are neither login, refresh nor logout actions, yet both mutate Session
fields of the auth store at a concrete logged-out state. -/
theorem session_mutated_by_other_actions :
    sessionOf (authReducer authLoggedOut
        (.registerFulfilled { accessToken := "A2", refreshToken := "R2", user := userW }))
      ≠ sessionOf authLoggedOut ∧
    sessionOf (authReducer authLoggedOut (.fetchCurrentUserFulfilled userW))
      ≠ sessionOf authLoggedOut := by
  exact ⟨by decide, by decide⟩

/-- C7 amended: the Session fields are mutated only by the fulfilled login,
register, fetchCurrentUser and refresh actions, the rejected
fetchCurrentUser and refresh actions, and logout — every other action
(pending and rejected login/register, pending fetchCurrentUser, profile and
avatar updates, clearError) leaves all three unchanged — and the session is
destroyed from every state exactly by logout and by refresh failure. -/
theorem session_mutation_frame (a : AuthAction) (s : AuthState) :
    (touchesSession a = false → sessionOf (authReducer s a) = sessionOf s) ∧
    ((∀ s2, sessionDestroyed (authReducer s2 a)) ↔
      (a = .logout ∨ a = .refreshRejected)) := by
  constructor
  · intro hf
    cases a <;> simp_all [touchesSession, authReducer, sessionOf]
  · cases a with
    | logout =>
      exact iff_of_true (fun s2 => by simp [authReducer, sessionDestroyed]) (Or.inl rfl)
    | refreshRejected =>
      exact iff_of_true (fun s2 => by simp [authReducer, sessionDestroyed]) (Or.inr rfl)
    | clearError =>
      refine iff_of_false (fun h => ?_) (by simp)
      have := (h sTok).1; simp [authReducer, sTok] at this
    | loginPending =>
      refine iff_of_false (fun h => ?_) (by simp)
      have := (h sTok).1; simp [authReducer, sTok] at this
    | loginFulfilled p =>
      refine iff_of_false (fun h => ?_) (by simp)
      have := (h sTok).2.2; simp [authReducer, sTok] at this
    | loginRejected m =>
      refine iff_of_false (fun h => ?_) (by simp)
      have := (h sTok).1; simp [authReducer, sTok] at this
    | registerPending =>
      refine iff_of_false (fun h => ?_) (by simp)
      have := (h sTok).1; simp [authReducer, sTok] at this
    | registerFulfilled p =>
      refine iff_of_false (fun h => ?_) (by simp)
      have := (h sTok).2.2; simp [authReducer, sTok] at this
    | registerRejected m =>
      refine iff_of_false (fun h => ?_) (by simp)
      have := (h sTok).1; simp [authReducer, sTok] at this
    | fetchCurrentUserPending =>
      refine iff_of_false (fun h => ?_) (by simp)
      have := (h sTok).1; simp [authReducer, sTok] at this
    | fetchCurrentUserFulfilled u =>
      refine iff_of_false (fun h => ?_) (by simp)
      have := (h sTok).2.2; simp [authReducer, sTok] at this
    | fetchCurrentUserRejected =>
      refine iff_of_false (fun h => ?_) (by simp)
      have := (h sTok).1; simp [authReducer, sTok] at this
    | updateProfileFulfilled u =>
      refine iff_of_false (fun h => ?_) (by simp)
      have := (h sTok).1; simp [authReducer, sTok] at this
    | uploadAvatarFulfilled u =>
      refine iff_of_false (fun h => ?_) (by simp)
      have := (h sTok).1; simp [authReducer, sTok] at this
    | refreshFulfilled t =>
      refine iff_of_false (fun h => ?_) (by simp)
      have := (h sTok).2.2; simp [authReducer, sTok] at this

/-- Witness for the amended C7: clearError leaves the session of a concrete
logged-in state unchanged, and logout destroys it. -/
theorem session_mutation_frame_witness :
    sessionOf (authReducer sTok .clearError) = sessionOf sTok ∧
    sessionDestroyed (authReducer sTok .logout) := by
  have h1 := session_mutation_frame .clearError sTok
  have h2 := session_mutation_frame .logout sTok
  exact ⟨h1.1 rfl, (h2.2.mpr (Or.inl rfl)) sTok⟩

/-- C9: logout is idempotent — applying it twice equals applying it once on
every auth state (in particular, applying it to an already logged-out state
yields the same logged-out state), it always leaves the session destroyed,
and its localStorage effect is idempotent too. -/
theorem logout_idempotent (s : AuthState) (st : LocalStorage) :
    authReducer (authReducer s .logout) .logout = authReducer s .logout ∧
    sessionDestroyed (authReducer s .logout) ∧
    logoutStorage (logoutStorage st) = logoutStorage st := by
  exact ⟨by simp [authReducer], by simp [authReducer, sessionDestroyed], rfl⟩

/-! ## Claims about the resource slices -/

/-- Mapping an in-place patch over a list with no matching element is the
identity. -/
theorem map_if_id (p : α → Bool) (f : α → α) (l : List α)
    (h : ∀ x ∈ l, p x = false) :
    l.map (fun x => if p x then f x else x) = l := by
  induction l with
  | nil => rfl
  | cons x xs ih => simp [h x (by simp), ih (fun y hy => h y (by simp [hy]))]

/-- `findIndex`-and-assign leaves a list without a matching element
unchanged. -/
theorem jsUpdateFirst_not_found (p : α → Bool) (f : α → α) (l : List α)
    (h : ∀ x ∈ l, p x = false) : jsUpdateFirst p f l = l := by
  induction l with
  | nil => rfl
  | cons x xs ih =>
    simp [jsUpdateFirst, h x (by simp), ih (fun y hy => h y (by simp [hy]))]

/-- When at most one element matches, `findIndex`-and-assign acts
pointwise: the matching element is replaced, every other one kept. -/
theorem jsUpdateFirst_eq_map (p : α → Bool) (f : α → α) (l : List α)
    (hl : l.Pairwise (fun a b => p a = true → p b = false)) :
    jsUpdateFirst p f l = l.map (fun x => if p x then f x else x) := by
  induction l with
  | nil => rfl
  | cons x xs ih =>
    rcases List.pairwise_cons.mp hl with ⟨hx, hxs⟩
    by_cases hpx : p x = true
    · have hrest : xs.map (fun y => if p y then f y else y) = xs :=
        map_if_id p f xs (fun y hy => hx y hy hpx)
      simp [jsUpdateFirst, hpx, hrest]
    · simp only [Bool.not_eq_true] at hpx
      simp [jsUpdateFirst, hpx, ih hxs]

/-- C8: a fulfilled mutation (`verifyThreat`, `acknowledgeThreat`,
`analyzeImage`) patches exactly the cached entity whose server id matches
the payload, leaves every other entity and every other state field
unchanged (no list replacement or re-fetch), and leaves the list unchanged
when no entity has the id; `analyzeImage` also patches the matching
`currentImage`. -/
theorem mutation_patches_entity_in_place (ts : ThreatState) (tp : Threat)
    (ss : SatelliteState) (ap : AnalyzePayload)
    (ht : ts.threats.Pairwise (fun a b => a.id ≠ b.id))
    (hi : ss.images.Pairwise (fun a b => a.id ≠ b.id)) :
    verifyThreatFulfilled ts tp
      = { ts with threats :=
            ts.threats.map (fun t => if t.id = tp.id then tp else t) } ∧
    acknowledgeThreatFulfilled ts tp
      = { ts with threats :=
            ts.threats.map (fun t => if t.id = tp.id then tp else t) } ∧
    ((∀ t ∈ ts.threats, t.id ≠ tp.id) →
      verifyThreatFulfilled ts tp = ts ∧ acknowledgeThreatFulfilled ts tp = ts) ∧
    (analyzeImageFulfilled ss ap).images
      = ss.images.map (fun img =>
          if img.id = ap.imageId then markAnalyzed img else img) ∧
    ((∀ img ∈ ss.images, img.id ≠ ap.imageId) →
      (analyzeImageFulfilled ss ap).images = ss.images) ∧
    (∀ c, ss.currentImage = some c →
      (analyzeImageFulfilled ss ap).currentImage
        = some (if c.id = ap.imageId then markAnalyzed c else c)) ∧
    (analyzeImageFulfilled ss ap).isLoading = ss.isLoading ∧
    (analyzeImageFulfilled ss ap).error = ss.error ∧
    (analyzeImageFulfilled ss ap).pagination = ss.pagination := by
  have hpt : ts.threats.Pairwise (fun a b =>
      decide (a.id = tp.id) = true → decide (b.id = tp.id) = false) := by
    refine ht.imp ?_
    intro a b hab ha
    simp only [decide_eq_true_eq] at ha
    simp only [decide_eq_false_iff_not]
    exact fun hb => hab (ha.trans hb.symm)
  have hpi : ss.images.Pairwise (fun a b =>
      decide (a.id = ap.imageId) = true → decide (b.id = ap.imageId) = false) := by
    refine hi.imp ?_
    intro a b hab ha
    simp only [decide_eq_true_eq] at ha
    simp only [decide_eq_false_iff_not]
    exact fun hb => hab (ha.trans hb.symm)
  have hv : verifyThreatFulfilled ts tp
      = { ts with threats :=
            ts.threats.map (fun t => if t.id = tp.id then tp else t) } := by
    unfold verifyThreatFulfilled
    rw [jsUpdateFirst_eq_map _ _ _ hpt]
    simp
  have ha : acknowledgeThreatFulfilled ts tp
      = { ts with threats :=
            ts.threats.map (fun t => if t.id = tp.id then tp else t) } := by
    unfold acknowledgeThreatFulfilled
    rw [jsUpdateFirst_eq_map _ _ _ hpt]
    simp
  have himg : (analyzeImageFulfilled ss ap).images
      = ss.images.map (fun img =>
          if img.id = ap.imageId then markAnalyzed img else img) := by
    show jsUpdateFirst (fun img => img.id = ap.imageId) markAnalyzed ss.images = _
    rw [jsUpdateFirst_eq_map _ _ _ hpi]
    simp
  refine ⟨hv, ha, ?_, himg, ?_, ?_, rfl, rfl, rfl⟩
  · intro hnone
    have h0 : ∀ t ∈ ts.threats, decide (t.id = tp.id) = false := by
      intro t htm
      exact decide_eq_false_iff_not.mpr (hnone t htm)
    constructor
    · unfold verifyThreatFulfilled
      rw [jsUpdateFirst_not_found _ _ _ h0]
    · unfold acknowledgeThreatFulfilled
      rw [jsUpdateFirst_not_found _ _ _ h0]
  · intro hnone
    rw [himg]
    have hconv : ss.images.map (fun img =>
          if img.id = ap.imageId then markAnalyzed img else img)
        = ss.images.map (fun img =>
          if decide (img.id = ap.imageId) = true then markAnalyzed img else img) := by
      simp
    rw [hconv]
    exact map_if_id _ _ _
      (fun img him => decide_eq_false_iff_not.mpr (hnone img him))
  · intro c hc
    by_cases hca : c.id = ap.imageId <;> simp [analyzeImageFulfilled, hc, hca]

/-- Witness for C8 at concrete two-element caches: verifying threat 2
patches only that entry, and analyzing image 2 patches only that image and
the matching current image, keeping pagination. -/
theorem mutation_patches_entity_in_place_witness :
    verifyThreatFulfilled tsW threatW2v
      = { tsW with threats :=
            tsW.threats.map (fun t => if t.id = threatW2v.id then threatW2v else t) } ∧
    (analyzeImageFulfilled ssW apW).images
      = ssW.images.map (fun img =>
          if img.id = apW.imageId then markAnalyzed img else img) ∧
    (analyzeImageFulfilled ssW apW).currentImage
      = some (if imgW2.id = apW.imageId then markAnalyzed imgW2 else imgW2) ∧
    (analyzeImageFulfilled ssW apW).pagination = ssW.pagination := by
  have h := mutation_patches_entity_in_place tsW threatW2v ssW apW
    (by decide) (by decide)
  exact ⟨h.1, h.2.2.2.1, h.2.2.2.2.2.1 imgW2 rfl, h.2.2.2.2.2.2.2.2⟩

end C2Tac
